import Mathlib

/-!
Shallow embedding of the adaptive load-governance layer of finans-nova:
the circuit breaker (`src/utils/circuit_breaker.py`), the rate limiter and
throttle manager (`src/services/throttle.py`), the metrics collector
(`src/services/metrics.py`) and the resource monitor
(`src/services/resource_monitor.py`).

Time values (`time.time()` readings and durations) are modelled as rationals.
Python exceptions are modelled as a class name paired with a message.
-/

/-- A Python exception value: its class name and its message. -/
structure Exn where
  cls : String
  msg : String
deriving DecidableEq, Repr

namespace CircuitBreakerModel

/-- The three states of `CircuitState` in `circuit_breaker.py`. -/
inductive CircuitState where
  | closed
  | «open»
  | halfOpen
deriving DecidableEq, Repr

/-- The mutable state and configuration of a `CircuitBreaker` instance.
`expected` models the `expected_exception` class filter: it answers whether a
raised exception is an instance of `expected_exception` (the Python default
`Exception` catch-all is `fun _ => true`). -/
structure CircuitBreaker where
  failure_threshold : Nat
  recovery_timeout : ℚ
  expected : Exn → Bool
  failure_count : Nat
  last_failure_time : Option ℚ
  state : CircuitState

/-- `CircuitBreaker.__init__`: fresh breaker. -/
def CircuitBreaker.new (failure_threshold : Nat) (recovery_timeout : ℚ)
    (expected : Exn → Bool) : CircuitBreaker :=
  { failure_threshold := failure_threshold
    recovery_timeout := recovery_timeout
    expected := expected
    failure_count := 0
    last_failure_time := none
    state := CircuitState.closed }

/-- `CircuitBreaker._on_success`. -/
def onSuccess (cb : CircuitBreaker) : CircuitBreaker :=
  let cb := { cb with failure_count := 0 }
  if cb.state = CircuitState.halfOpen then
    { cb with state := CircuitState.closed }
  else cb

/-- `CircuitBreaker._on_failure`, with `now` the `time.time()` reading. -/
def onFailure (cb : CircuitBreaker) (now : ℚ) : CircuitBreaker :=
  let cb := { cb with failure_count := cb.failure_count + 1,
                      last_failure_time := some now }
  if cb.failure_count ≥ cb.failure_threshold then
    { cb with state := CircuitState.«open» }
  else cb

/-- The exception raised when the breaker rejects a call:
`Exception("Circuit breaker is OPEN, request blocked")` — the generic
`Exception` class. -/
def breakerOpenExn : Exn :=
  { cls := "Exception", msg := "Circuit breaker is OPEN, request blocked" }

/-- Everything a single `CircuitBreaker.call` produces: the value returned or
the exception raised (`result`), the breaker's state afterwards, and whether
the wrapped operation was invoked at all. -/
structure CallOutcome (α : Type) where
  result : Except Exn α
  breaker : CircuitBreaker
  invoked : Bool

/-- The `try/except` block of `CircuitBreaker.call`: run the wrapped
operation, record success / expected failure, and return or re-raise. -/
def attempt (cb : CircuitBreaker) (now : ℚ) (op : Except Exn α) : CallOutcome α :=
  match op with
  | Except.ok v => { result := Except.ok v, breaker := onSuccess cb, invoked := true }
  | Except.error e =>
      if cb.expected e then
        { result := Except.error e, breaker := onFailure cb now, invoked := true }
      else
        { result := Except.error e, breaker := cb, invoked := true }

/-- `CircuitBreaker.call`.  The wrapped coroutine is modelled by its outcome
`op : Except Exn α` (the value it returns or the exception it raises), and
`now` is the `time.time()` reading used by the open-state check and by
`_on_failure`. -/
def call (cb : CircuitBreaker) (now : ℚ) (op : Except Exn α) : CallOutcome α :=
  if cb.state = CircuitState.«open» ∧
      ¬ (now - cb.last_failure_time.getD 0 ≥ cb.recovery_timeout) then
    { result := Except.error breakerOpenExn, breaker := cb, invoked := false }
  else
    attempt
      (if cb.state = CircuitState.«open» then
        { cb with state := CircuitState.halfOpen }
      else cb) now op

/-- The breaker state after one `call` whose wrapped operation raises `e`. -/
def failStep (cb : CircuitBreaker) (t : ℚ) (e : Exn) : CircuitBreaker :=
  (call cb t (Except.error e : Except Exn Unit)).breaker

end CircuitBreakerModel

namespace ThrottleModel

/-- `ThrottleConfig` dataclass. -/
structure ThrottleConfig where
  max_requests_per_second : ℚ
  max_requests_per_minute : ℚ
  burst_size : Nat
deriving DecidableEq, Repr

/-- A `RateLimiter` instance: its config and its two timestamp deques
(oldest first). -/
structure RateLimiter where
  config : ThrottleConfig
  requests_last_second : List ℚ
  requests_last_minute : List ℚ
deriving DecidableEq, Repr

/-- `RateLimiter.__init__`: empty deques. -/
def RateLimiter.new (config : ThrottleConfig) : RateLimiter :=
  { config := config, requests_last_second := [], requests_last_minute := [] }

/-- `deque(maxlen=n)` capacity of `requests_last_second`:
`int(config.max_requests_per_second * 2)`. -/
def RateLimiter.maxlenSecond (rl : RateLimiter) : Nat :=
  (⌊rl.config.max_requests_per_second * 2⌋).toNat

/-- `deque(maxlen=n)` capacity of `requests_last_minute`:
`int(config.max_requests_per_minute * 2)`. -/
def RateLimiter.maxlenMinute (rl : RateLimiter) : Nat :=
  (⌊rl.config.max_requests_per_minute * 2⌋).toNat

/-- `deque.append` on a deque with capacity `maxlen`: when full, the oldest
entry is discarded from the left. -/
def dequeAppend (maxlen : Nat) (xs : List ℚ) (x : ℚ) : List ℚ :=
  if maxlen = 0 then []
  else if xs.length ≥ maxlen then (xs ++ [x]).drop (xs.length + 1 - maxlen)
  else xs ++ [x]

/-- The `while deque and deque[0] < cutoff: deque.popleft()` loop of
`_cleanup_old_requests`: pops from the front until the front entry is not
older than `cutoff`. -/
def dropOld (cutoff : ℚ) : List ℚ → List ℚ
  | [] => []
  | t :: ts => if t < cutoff then dropOld cutoff ts else t :: ts

/-- `RateLimiter._cleanup_old_requests`. -/
def cleanup (rl : RateLimiter) (now : ℚ) : RateLimiter :=
  { rl with
    requests_last_second := dropOld (now - 1) rl.requests_last_second
    requests_last_minute := dropOld (now - 60) rl.requests_last_minute }

/-- What one execution of the body of `RateLimiter.acquire` does before any
recursion: grant (append and return `True`), deny (return `False`), or sleep
for `waitTime` seconds and then re-enter `acquire` with `wait=False`. -/
inductive AcquireStep where
  | granted
  | denied
  | sleepRetry (waitTime : ℚ)
deriving DecidableEq, Repr

/-- `second_count`: entries of `requests_last_second` within the trailing
1-second window. -/
def RateLimiter.secondCount (rl : RateLimiter) (now : ℚ) : Nat :=
  (rl.requests_last_second.filter fun t => now - t < 1).length

/-- `minute_count`: entries of `requests_last_minute` within the trailing
60-second window. -/
def RateLimiter.minuteCount (rl : RateLimiter) (now : ℚ) : Nat :=
  (rl.requests_last_minute.filter fun t => now - t < 60).length

/-- One execution of the body of `RateLimiter.acquire` at time `now`:
prune, count both windows, test the per-second then the per-minute limit,
and either deny / schedule a sleep-and-retry, or append `now` to both deques
and grant. -/
def acquireBody (rl : RateLimiter) (now : ℚ) (wait : Bool) :
    AcquireStep × RateLimiter :=
  let rl := cleanup rl now
  if (rl.secondCount now : ℚ) ≥ rl.config.max_requests_per_second then
    if wait then
      (AcquireStep.sleepRetry (1 - (now - rl.requests_last_second.headI)), rl)
    else (AcquireStep.denied, rl)
  else if (rl.minuteCount now : ℚ) ≥ rl.config.max_requests_per_minute then
    if wait then
      (AcquireStep.sleepRetry (60 - (now - rl.requests_last_minute.headI)), rl)
    else (AcquireStep.denied, rl)
  else
    (AcquireStep.granted,
      { rl with
        requests_last_second := dequeAppend rl.maxlenSecond rl.requests_last_second now
        requests_last_minute := dequeAppend rl.maxlenMinute rl.requests_last_minute now })

/-- What one invocation of `RateLimiter.acquire` does, as observed by its
caller: either the call returns a boolean (with the limiter's state
afterwards), or it blocks forever on `async with self._lock`.  In both cases
the outcome records the durations passed to `asyncio.sleep`, in order. -/
inductive AcquireOutcome where
  | returns (value : Bool) (limiter : RateLimiter) (sleeps : List ℚ)
  | deadlock (sleeps : List ℚ)
deriving DecidableEq, Repr

/-- One (re-)invocation of `RateLimiter.acquire`.  `locked` is whether
`self._lock` is already held by the current task when this invocation
reaches `async with self._lock`: `asyncio.Lock` is not reentrant, and the
only holder is the very task that is blocked awaiting this invocation, so
entering with `locked = true` never returns.  The entire body — including
the `asyncio.sleep` and the recursive `return await self.acquire(wait=False)`
— runs inside the `with` block, so the recursive call re-enters with the
lock still held.  `nows` supplies the `time.time()` reading of each
invocation that gets past the lock; `none` means the supplied readings ran
out before the call finished. -/
def acquireAux : Bool → RateLimiter → Bool → List ℚ → Option AcquireOutcome
  | true, _, _, _ => some (AcquireOutcome.deadlock [])
  | false, _, _, [] => none
  | false, rl, wait, now :: rest =>
    match acquireBody rl now wait with
    | (AcquireStep.granted, rl') => some (AcquireOutcome.returns true rl' [])
    | (AcquireStep.denied, rl') => some (AcquireOutcome.returns false rl' [])
    | (AcquireStep.sleepRetry w, rl') =>
        (acquireAux true rl' false rest).map fun r =>
          match r with
          | AcquireOutcome.returns b rl'' sleeps =>
              AcquireOutcome.returns b rl'' (w :: sleeps)
          | AcquireOutcome.deadlock sleeps => AcquireOutcome.deadlock (w :: sleeps)

/-- `RateLimiter.acquire` as called from outside: the caller does not hold
`self._lock`. -/
def RateLimiter.acquire (rl : RateLimiter) (wait : Bool) (nows : List ℚ) :
    Option AcquireOutcome :=
  acquireAux false rl wait nows

/-- A `ThrottleManager` instance: the degraded flag, the two configs, and the
operation-class → `RateLimiter` dict (keys in insertion order). -/
structure ThrottleManager where
  is_degraded : Bool
  normal_config : ThrottleConfig
  degraded_config : ThrottleConfig
  rate_limiters : List (String × RateLimiter)
deriving DecidableEq, Repr

/-- The Normal `ThrottleConfig` built in `ThrottleManager.__init__`. -/
def normalConfig : ThrottleConfig :=
  { max_requests_per_second := 10, max_requests_per_minute := 100, burst_size := 5 }

/-- The Degraded `ThrottleConfig` built in `ThrottleManager.__init__`. -/
def degradedConfig : ThrottleConfig :=
  { max_requests_per_second := 2, max_requests_per_minute := 30, burst_size := 2 }

/-- `ThrottleManager.__init__`. -/
def ThrottleManager.new : ThrottleManager :=
  { is_degraded := false
    normal_config := normalConfig
    degraded_config := degradedConfig
    rate_limiters :=
      [("voice", RateLimiter.new normalConfig),
       ("text", RateLimiter.new normalConfig),
       ("callback", RateLimiter.new normalConfig),
       ("ai", RateLimiter.new normalConfig),
       ("sheets", RateLimiter.new normalConfig)] }

/-- `ThrottleManager.enable_degraded_mode`. -/
def enable_degraded_mode (tm : ThrottleManager) : ThrottleManager :=
  if tm.is_degraded then tm
  else
    { tm with
      is_degraded := true
      rate_limiters := tm.rate_limiters.map
        fun p => (p.1, RateLimiter.new tm.degraded_config) }

/-- `ThrottleManager.disable_degraded_mode`. -/
def disable_degraded_mode (tm : ThrottleManager) : ThrottleManager :=
  if ¬ tm.is_degraded then tm
  else
    { tm with
      is_degraded := false
      rate_limiters := tm.rate_limiters.map
        fun p => (p.1, RateLimiter.new tm.normal_config) }

/-- Dict lookup `self.rate_limiters[operation_type]` (with the
`operation_type not in self.rate_limiters` membership test). -/
def lookupLimiter (tm : ThrottleManager) (operation_type : String) :
    Option RateLimiter :=
  (tm.rate_limiters.find? fun p => p.1 = operation_type).map Prod.snd

/-- Writing the mutated limiter back into the dict (Python mutates the limiter
object in place; the dict entry keeps referring to it). -/
def storeLimiter (tm : ThrottleManager) (operation_type : String)
    (rl : RateLimiter) : ThrottleManager :=
  { tm with
    rate_limiters := tm.rate_limiters.map
      fun p => if p.1 = operation_type then (p.1, rl) else p }

/-- The observable outcome of a `ThrottleManager.acquire` call: a returned
boolean with the manager's state afterwards, or a call that never returns
(a deadlocked limiter); with the sleeps performed, in order. -/
inductive ManagerAcquireOutcome where
  | returns (value : Bool) (tm : ThrottleManager) (sleeps : List ℚ)
  | deadlock (sleeps : List ℚ)
deriving DecidableEq, Repr

/-- `ThrottleManager.acquire`: unknown operation types are allowed through
without touching any limiter; known ones delegate to the class's limiter. -/
def ThrottleManager.acquire (tm : ThrottleManager) (operation_type : String)
    (wait : Bool) (nows : List ℚ) : Option ManagerAcquireOutcome :=
  match lookupLimiter tm operation_type with
  | none => some (ManagerAcquireOutcome.returns true tm [])
  | some limiter =>
      (limiter.acquire wait nows).map fun r =>
        match r with
        | AcquireOutcome.returns b rl' sleeps =>
            ManagerAcquireOutcome.returns b (storeLimiter tm operation_type rl') sleeps
        | AcquireOutcome.deadlock sleeps => ManagerAcquireOutcome.deadlock sleeps

end ThrottleModel

namespace MetricsModel

/-- `ServiceStatus` dataclass.  `datetime.now()` timestamps are rationals. -/
structure ServiceStatus where
  last_success : Option ℚ := none
  last_failure : Option ℚ := none
  total_calls : Nat := 0
  success_calls : Nat := 0
  failed_calls : Nat := 0
  avg_response_time : ℚ := 0
  last_error : Option String := none
deriving DecidableEq, Repr

/-- `ServiceStatus.is_healthy`. -/
def ServiceStatus.is_healthy (st : ServiceStatus) : Bool :=
  if st.total_calls = 0 then true
  else (st.success_calls : ℚ) / (st.total_calls : ℚ) ≥ 95 / 100

/-- `ServiceStatus.success_rate` (a percentage). -/
def ServiceStatus.success_rate (st : ServiceStatus) : ℚ :=
  if st.total_calls = 0 then 100
  else (st.success_calls : ℚ) / (st.total_calls : ℚ) * 100

/-- `RequestMetrics` dataclass. -/
structure RequestMetrics where
  count : Nat := 0
  success : Nat := 0
  errors : Nat := 0
  total_duration : ℚ := 0
deriving DecidableEq, Repr

/-- The mutable state of `MetricsCollector` touched by the recording methods:
the per-dependency dict, the per-operation-class defaultdict, and the
latency ring `deque(maxlen=1000)` (oldest first). -/
structure MetricsCollector where
  services : List (String × ServiceStatus)
  request_types : String → RequestMetrics
  response_times : List ℚ

/-- `MetricsCollector.__init__`. -/
def MetricsCollector.new : MetricsCollector :=
  { services :=
      [("yandex_gpt", {}), ("yandex_stt", {}), ("google_sheets", {}),
       ("telegram", {})]
    request_types := fun _ => {}
    response_times := [] }

/-- `MetricsCollector.record_request`. -/
def record_request (mc : MetricsCollector) (request_type : String)
    (duration : ℚ) (success : Bool) : MetricsCollector :=
  let metrics := mc.request_types request_type
  let metrics :=
    { metrics with count := metrics.count + 1,
                   total_duration := metrics.total_duration + duration }
  let metrics :=
    if success then { metrics with success := metrics.success + 1 }
    else { metrics with errors := metrics.errors + 1 }
  { mc with
    request_types := fun k => if k = request_type then metrics else mc.request_types k
    response_times := ThrottleModel.dequeAppend 1000 mc.response_times duration }

/-- The body of `record_service_call` applied to one `ServiceStatus`. -/
def updateStatus (st : ServiceStatus) (success : Bool) (duration : ℚ)
    (error : Option String) (now : ℚ) : ServiceStatus :=
  let st := { st with total_calls := st.total_calls + 1 }
  let st :=
    if success then
      { st with success_calls := st.success_calls + 1, last_success := some now }
    else
      { st with failed_calls := st.failed_calls + 1, last_failure := some now,
                last_error := error }
  if st.total_calls = 1 then { st with avg_response_time := duration }
  else
    { st with avg_response_time :=
        (st.avg_response_time * ((st.total_calls : ℚ) - 1) + duration) /
          (st.total_calls : ℚ) }

/-- Dict lookup `self.services[service]`. -/
def lookupService (mc : MetricsCollector) (service : String) :
    Option ServiceStatus :=
  (mc.services.find? fun p => p.1 = service).map Prod.snd

/-- `MetricsCollector.record_service_call`: unknown services are a no-op. -/
def record_service_call (mc : MetricsCollector) (service : String)
    (success : Bool) (duration : ℚ) (error : Option String) (now : ℚ) :
    MetricsCollector :=
  if (mc.services.find? fun p => p.1 = service).isSome then
    { mc with
      services := mc.services.map
        (fun p => if p.1 = service then
            (p.1, updateStatus p.2 success duration error now)
          else p) }
  else mc

/-- The nearest-rank percentile triple returned by
`get_response_time_percentiles`, as `(p50, p95, p99)`. -/
def get_response_time_percentiles (mc : MetricsCollector) : ℚ × ℚ × ℚ :=
  if mc.response_times = [] then (0, 0, 0)
  else
    let sorted_times := mc.response_times.mergeSort (· ≤ ·)
    let count := sorted_times.length
    (sorted_times.getD (⌊(count : ℚ) * (50 / 100)⌋).toNat 0,
     sorted_times.getD (⌊(count : ℚ) * (95 / 100)⌋).toNat 0,
     sorted_times.getD (⌊(count : ℚ) * (99 / 100)⌋).toNat 0)

/-- The `unhealthy_services` list comprehension of `get_overall_health`. -/
def unhealthy_services (mc : MetricsCollector) : List String :=
  (mc.services.filter fun p => ¬ p.2.is_healthy ∧ p.2.total_calls > 0).map
    Prod.fst

/-- `MetricsCollector.get_overall_health`. -/
def get_overall_health (mc : MetricsCollector) : String :=
  if unhealthy_services mc = [] then "healthy"
  else if (unhealthy_services mc).length ≥ 2 then "unhealthy"
  else "degraded"

/-- One call into the recording interface of `MetricsCollector`. -/
inductive MetricsEvent where
  | req (request_type : String) (duration : ℚ) (success : Bool)
  | svc (service : String) (success : Bool) (duration : ℚ)
      (error : Option String) (now : ℚ)

/-- Applying one recorded call. -/
def applyEvent (mc : MetricsCollector) : MetricsEvent → MetricsCollector
  | MetricsEvent.req request_type duration success =>
      record_request mc request_type duration success
  | MetricsEvent.svc service success duration error now =>
      record_service_call mc service success duration error now

/-- Replaying a sequence of recorded calls. -/
def runEvents (mc : MetricsCollector) (es : List MetricsEvent) : MetricsCollector :=
  es.foldl applyEvent mc

/-- The durations of the events of `es` that `record_service_call` books onto
dependency `s` (in order). -/
def svcDurations (s : String) : List MetricsEvent → List ℚ
  | [] => []
  | MetricsEvent.req _ _ _ :: es => svcDurations s es
  | MetricsEvent.svc service _ duration _ _ :: es =>
      if service = s then duration :: svcDurations s es else svcDurations s es

end MetricsModel

namespace ResourceMonitorModel

/-- The state of a `ResourceMonitor` relevant to `_check_resources`. -/
structure ResourceMonitor where
  memory_threshold_mb : ℚ
  cpu_threshold_percent : ℚ
  check_interval : ℚ
  is_degraded : Bool
deriving DecidableEq, Repr

/-- Everything one `_check_resources` step does: the monitor afterwards, the
throttle manager afterwards, whether `_trigger_gc` ran, and which of
`enable_degraded_mode` / `disable_degraded_mode` was invoked. -/
structure CheckEffects where
  monitor : ResourceMonitor
  manager : ThrottleModel.ThrottleManager
  gcTriggered : Bool
  enabledCalled : Bool
  disabledCalled : Bool
deriving Repr

/-- `ResourceMonitor._check_resources`, given the sampled `memory_mb` and
`cpu_percent` and the global throttle manager. -/
def check_resources (rm : ResourceMonitor) (tm : ThrottleModel.ThrottleManager)
    (memory_mb cpu_percent : ℚ) : CheckEffects :=
  let sg : Bool × Bool :=
    if memory_mb > rm.memory_threshold_mb then (true, true)
    else if cpu_percent > rm.cpu_threshold_percent then (true, false)
    else (false, false)
  let should_degrade := sg.1
  if should_degrade ∧ ¬ rm.is_degraded then
    { monitor := { rm with is_degraded := true }
      manager := ThrottleModel.enable_degraded_mode tm
      gcTriggered := sg.2
      enabledCalled := true
      disabledCalled := false }
  else if ¬ should_degrade ∧ rm.is_degraded then
    { monitor := { rm with is_degraded := false }
      manager := ThrottleModel.disable_degraded_mode tm
      gcTriggered := sg.2
      enabledCalled := false
      disabledCalled := true }
  else
    { monitor := rm, manager := tm, gcTriggered := sg.2,
      enabledCalled := false, disabledCalled := false }

end ResourceMonitorModel

/-! ## Theorems -/

namespace CircuitBreakerModel

lemma attempt_invoked {α : Type} (cb : CircuitBreaker) (now : ℚ) (op : Except Exn α) :
    (attempt cb now op).invoked = true := by
  cases op with
  | ok v => rfl
  | error e => by_cases h : cb.expected e <;> simp [attempt, h]

lemma attempt_result {α : Type} (cb : CircuitBreaker) (now : ℚ) (op : Except Exn α) :
    (attempt cb now op).result = op := by
  cases op with
  | ok v => rfl
  | error e => by_cases h : cb.expected e <;> simp [attempt, h]

lemma call_rejects {α : Type} (cb : CircuitBreaker) (now : ℚ) (op : Except Exn α)
    (h1 : cb.state = CircuitState.«open»)
    (h2 : now - cb.last_failure_time.getD 0 < cb.recovery_timeout) :
    call cb now op =
      { result := Except.error breakerOpenExn, breaker := cb, invoked := false } := by
  unfold call
  rw [if_pos ⟨h1, not_le.mpr h2⟩]

lemma call_cases {α : Type} (cb : CircuitBreaker) (now : ℚ) (op : Except Exn α) :
    (cb.state = CircuitState.«open»
      ∧ now - cb.last_failure_time.getD 0 < cb.recovery_timeout
      ∧ call cb now op =
          { result := Except.error breakerOpenExn, breaker := cb, invoked := false })
  ∨ ((call cb now op).invoked = true ∧ (call cb now op).result = op) := by
  unfold call
  split
  case isTrue h => exact Or.inl ⟨h.1, not_le.mp h.2, rfl⟩
  case isFalse h => exact Or.inr ⟨attempt_invoked _ _ _, attempt_result _ _ _⟩

/-- C1: with `failure_threshold = 3` and a fresh Closed breaker, three
consecutive calls whose operation raises an expected exception leave the
breaker Open with `failure_count = 3`; while Open and before
`recovery_timeout` has elapsed since `last_failure_time`, a call is rejected
with the breaker-open exception, does not invoke the operation and leaves the
breaker unchanged; once `now - last_failure_time ≥ recovery_timeout` the next
call transitions the breaker to HalfOpen before attempting the operation
(which is therefore invoked), and if that attempt succeeds the breaker ends
Closed with `failure_count = 0`. -/
theorem C1_breaker_threshold_open_recovery
    {α : Type} (cb : CircuitBreaker) (t1 t2 t3 : ℚ) (e1 e2 e3 : Exn)
    (hthr : cb.failure_threshold = 3)
    (hstate : cb.state = CircuitState.closed)
    (hcount : cb.failure_count = 0)
    (he1 : cb.expected e1 = true) (he2 : cb.expected e2 = true)
    (he3 : cb.expected e3 = true)
    (cbO : CircuitBreaker) (tl now now' : ℚ) (op : Except Exn α) (v : α)
    (hOst : cbO.state = CircuitState.«open»)
    (hOlt : cbO.last_failure_time = some tl)
    (hearly : now - tl < cbO.recovery_timeout)
    (hlate : now' - tl ≥ cbO.recovery_timeout) :
    ((failStep (failStep (failStep cb t1 e1) t2 e2) t3 e3).state
        = CircuitState.«open» ∧
     (failStep (failStep (failStep cb t1 e1) t2 e2) t3 e3).failure_count = 3)
  ∧ call cbO now op =
      { result := Except.error breakerOpenExn, breaker := cbO, invoked := false }
  ∧ (call cbO now' op).invoked = true
  ∧ (∀ e : Exn, cbO.expected e = false →
      (call cbO now' (Except.error e : Except Exn α)).breaker.state
        = CircuitState.halfOpen)
  ∧ (call cbO now' (Except.ok v)).breaker.state = CircuitState.closed
  ∧ (call cbO now' (Except.ok v)).breaker.failure_count = 0 := by
  refine ⟨⟨?_, ?_⟩, ?_, ?_, ?_, ?_, ?_⟩
  · simp [failStep, call, attempt, onFailure, hstate, hcount, hthr, he1, he2, he3]
  · simp [failStep, call, attempt, onFailure, hstate, hcount, hthr, he1, he2, he3]
  · simp [call, hOst, hOlt, not_le.mpr hearly]
  · cases op with
    | ok v' => simp [call, attempt, hOst, hOlt, hlate]
    | error e =>
        by_cases h : cbO.expected e <;>
          simp [call, attempt, hOst, hOlt, hlate, h]
  · intro e he
    simp [call, attempt, hOst, hOlt, hlate, he]
  · simp [call, attempt, onSuccess, hOst, hOlt, hlate]
  · simp [call, attempt, onSuccess, hOst, hOlt, hlate]

/-- Witness for C1 at a concrete breaker: an Open breaker with
`recovery_timeout = 30` and `last_failure_time = 0` rejects a call at time 10
without invoking the operation. -/
theorem C1_breaker_witness :
    call (⟨3, 30, fun _ => true, 3, some 0, CircuitState.«open»⟩ : CircuitBreaker) 10
        (Except.ok (7 : Nat)) =
      { result := Except.error breakerOpenExn,
        breaker := ⟨3, 30, fun _ => true, 3, some 0, CircuitState.«open»⟩,
        invoked := false } :=
  (C1_breaker_threshold_open_recovery (CircuitBreaker.new 3 30 (fun _ => true)) 0 0 0
      ⟨"Exception", "boom"⟩ ⟨"Exception", "boom"⟩ ⟨"Exception", "boom"⟩ rfl rfl rfl rfl rfl rfl
      ⟨3, 30, fun _ => true, 3, some 0, CircuitState.«open»⟩ 0 10 30 (Except.ok 7) 7
      rfl rfl (by norm_num) (by norm_num)).2.1

/-- C8 counterexample: the breaker-open rejection raises the generic
`Exception("Circuit breaker is OPEN, request blocked")`, so a wrapped
operation that itself raises an identical exception produces the very same
observable result as a rejection — the caller cannot distinguish the two
from the raised exception, refuting the claimed distinguishability. -/
theorem C8_counterexample_shared_rejection_exn :
    (call (⟨3, 30, fun _ => true, 3, some 0, CircuitState.«open»⟩ : CircuitBreaker) 10
        (Except.error breakerOpenExn : Except Exn Nat)).invoked = false
  ∧ (call (⟨3, 30, fun _ => true, 0, none, CircuitState.closed⟩ : CircuitBreaker) 10
        (Except.error breakerOpenExn : Except Exn Nat)).invoked = true
  ∧ (call (⟨3, 30, fun _ => true, 3, some 0, CircuitState.«open»⟩ : CircuitBreaker) 10
        (Except.error breakerOpenExn : Except Exn Nat)).result
      = (call (⟨3, 30, fun _ => true, 0, none, CircuitState.closed⟩ : CircuitBreaker) 10
        (Except.error breakerOpenExn : Except Exn Nat)).result := by
  have hopen := call_rejects
    (⟨3, 30, fun _ => true, 3, some 0, CircuitState.«open»⟩ : CircuitBreaker) 10
    (Except.error breakerOpenExn : Except Exn Nat) rfl (by norm_num)
  rcases call_cases
      (⟨3, 30, fun _ => true, 0, none, CircuitState.closed⟩ : CircuitBreaker) 10
      (Except.error breakerOpenExn : Except Exn Nat) with ⟨h, -⟩ | ⟨hinv, hres⟩
  · exact absurd h (by simp)
  · rw [hopen, hinv, hres]
    exact ⟨rfl, rfl, rfl⟩

/-- C8 (amended): every `call` either rejects without invoking the operation
— raising exactly the breaker-open exception and leaving the breaker
untouched — or invokes it and propagates the operation's own outcome
unchanged; consequently the rejection is distinguishable from an operation
error whenever that error differs from the breaker-open exception, but not
when the operation raises an identical generic `Exception`. -/
theorem C8_call_outcome_characterization
    {α : Type} (cb : CircuitBreaker) (now : ℚ) (op : Except Exn α) :
    ((call cb now op).invoked = false →
        (call cb now op).result = Except.error breakerOpenExn
        ∧ (call cb now op).breaker = cb)
  ∧ ((call cb now op).invoked = true → (call cb now op).result = op)
  ∧ (∀ e : Exn, op = Except.error e → e ≠ breakerOpenExn →
        ((call cb now op).result = Except.error breakerOpenExn
          ↔ (call cb now op).invoked = false)) := by
  rcases call_cases cb now op with ⟨-, -, heq⟩ | ⟨hinv, hres⟩
  · rw [heq]
    exact ⟨fun _ => ⟨rfl, rfl⟩, fun h => Bool.noConfusion h,
      fun e he hne => ⟨fun _ => rfl, fun _ => rfl⟩⟩
  · rw [hinv, hres]
    refine ⟨fun h => Bool.noConfusion h, fun _ => rfl, fun e he hne => ?_⟩
    subst he
    simp [hne]

/-- Witness for C8 (amended) at a concrete input: a Closed breaker invokes
the operation and propagates its `ValueError` unchanged. -/
theorem C8_witness :
    (call (⟨3, 30, fun _ => true, 0, none, CircuitState.closed⟩ : CircuitBreaker) 10
        (Except.error ⟨"ValueError", "boom"⟩ : Except Exn Nat)).result
      = Except.error ⟨"ValueError", "boom"⟩ := by
  rcases call_cases
      (⟨3, 30, fun _ => true, 0, none, CircuitState.closed⟩ : CircuitBreaker) 10
      (Except.error ⟨"ValueError", "boom"⟩ : Except Exn Nat) with ⟨hst, -⟩ | ⟨hinv, -⟩
  · exact absurd hst (by simp)
  · exact (C8_call_outcome_characterization
      (⟨3, 30, fun _ => true, 0, none, CircuitState.closed⟩ : CircuitBreaker) 10
      (Except.error ⟨"ValueError", "boom"⟩ : Except Exn Nat)).2.1 hinv

end CircuitBreakerModel

namespace ResourceMonitorModel

/-- C7: each `_check_resources` step decides
`should_degrade = memory > memThreshold OR cpu > cpuThreshold`;
`enable_degraded_mode` / `disable_degraded_mode` are invoked exactly when
that decision differs from the stored `is_degraded` flag (identical
decisions change nothing), and the garbage-collection sweep runs exactly
when the memory threshold is exceeded — never on a CPU-only crossing. -/
theorem C7_resource_check_edge_trigger
    (rm : ResourceMonitor) (tm : ThrottleModel.ThrottleManager)
    (memory_mb cpu_percent : ℚ) :
    ((check_resources rm tm memory_mb cpu_percent).enabledCalled = true ↔
        ((memory_mb > rm.memory_threshold_mb ∨ cpu_percent > rm.cpu_threshold_percent)
          ∧ rm.is_degraded = false))
  ∧ ((check_resources rm tm memory_mb cpu_percent).disabledCalled = true ↔
        (¬ (memory_mb > rm.memory_threshold_mb ∨ cpu_percent > rm.cpu_threshold_percent)
          ∧ rm.is_degraded = true))
  ∧ ((check_resources rm tm memory_mb cpu_percent).monitor.is_degraded =
        decide (memory_mb > rm.memory_threshold_mb ∨ cpu_percent > rm.cpu_threshold_percent))
  ∧ (decide (memory_mb > rm.memory_threshold_mb ∨ cpu_percent > rm.cpu_threshold_percent)
        = rm.is_degraded →
      (check_resources rm tm memory_mb cpu_percent).monitor = rm
      ∧ (check_resources rm tm memory_mb cpu_percent).manager = tm
      ∧ (check_resources rm tm memory_mb cpu_percent).enabledCalled = false
      ∧ (check_resources rm tm memory_mb cpu_percent).disabledCalled = false)
  ∧ ((check_resources rm tm memory_mb cpu_percent).gcTriggered = true ↔
        memory_mb > rm.memory_threshold_mb) := by
  by_cases hm : memory_mb > rm.memory_threshold_mb <;>
    by_cases hc : cpu_percent > rm.cpu_threshold_percent <;>
    cases hd : rm.is_degraded <;>
    simp [check_resources, hm, hc, hd]

/-- Witness for C7 at the production thresholds (400 MB, 75 %): a sample of
500 MB memory and 10 % CPU triggers the garbage-collection sweep. -/
theorem C7_resource_check_witness :
    (check_resources ⟨400, 75, 300, false⟩ ThrottleModel.ThrottleManager.new
        500 10).gcTriggered = true :=
  (C7_resource_check_edge_trigger ⟨400, 75, 300, false⟩
      ThrottleModel.ThrottleManager.new 500 10).2.2.2.2.mpr (by norm_num)

end ResourceMonitorModel

namespace ThrottleModel

/-- C3: `enable_degraded_mode` replaces every operation class's RateLimiter
with a fresh one built from the Degraded config, `disable_degraded_mode`
replaces every one with a fresh one built from the Normal config; both are
idempotent no-ops when the manager is already in the target mode, and
disabling after enabling restores the manager exactly to its initial state
(the original caps). -/
theorem C3_degraded_mode_swap_idempotent (tm : ThrottleManager) :
    (tm.is_degraded = false →
        (enable_degraded_mode tm).is_degraded = true
        ∧ (enable_degraded_mode tm).rate_limiters
            = tm.rate_limiters.map (fun p => (p.1, RateLimiter.new tm.degraded_config)))
  ∧ (tm.is_degraded = true → enable_degraded_mode tm = tm)
  ∧ (tm.is_degraded = true →
        (disable_degraded_mode tm).is_degraded = false
        ∧ (disable_degraded_mode tm).rate_limiters
            = tm.rate_limiters.map (fun p => (p.1, RateLimiter.new tm.normal_config)))
  ∧ (tm.is_degraded = false → disable_degraded_mode tm = tm)
  ∧ enable_degraded_mode (enable_degraded_mode tm) = enable_degraded_mode tm
  ∧ disable_degraded_mode (disable_degraded_mode tm) = disable_degraded_mode tm
  ∧ disable_degraded_mode (enable_degraded_mode ThrottleManager.new)
      = ThrottleManager.new := by
  refine ⟨?_, ?_, ?_, ?_, ?_, ?_, ?_⟩
  · intro hd; simp [enable_degraded_mode, hd]
  · intro hd; simp [enable_degraded_mode, hd]
  · intro hd; simp [disable_degraded_mode, hd]
  · intro hd; simp [disable_degraded_mode, hd]
  · cases hd : tm.is_degraded <;> simp [enable_degraded_mode, hd]
  · cases hd : tm.is_degraded <;> simp [disable_degraded_mode, hd]
  · rfl

/-- Witness for C3 at the initial manager: enabling degraded mode twice
equals enabling it once. -/
theorem C3_witness :
    enable_degraded_mode (enable_degraded_mode ThrottleManager.new)
      = enable_degraded_mode ThrottleManager.new :=
  (C3_degraded_mode_swap_idempotent ThrottleManager.new).2.2.2.2.1

/-- C10: the manager's limiter dict holds exactly the five enumerated
operation classes (and mode switches never change the key set), and
`ThrottleManager.acquire` on any operation type outside those five returns
`True` unconditionally, without consulting or modifying any limiter and
without sleeping, regardless of mode or the `wait` argument. -/
theorem C10_unknown_operation_fail_open
    (tm : ThrottleManager) (operation_type : String) (wait : Bool) (nows : List ℚ) :
    (ThrottleManager.new.rate_limiters.map Prod.fst
        = ["voice", "text", "callback", "ai", "sheets"])
  ∧ ((enable_degraded_mode tm).rate_limiters.map Prod.fst
        = tm.rate_limiters.map Prod.fst)
  ∧ ((disable_degraded_mode tm).rate_limiters.map Prod.fst
        = tm.rate_limiters.map Prod.fst)
  ∧ (tm.rate_limiters.map Prod.fst = ["voice", "text", "callback", "ai", "sheets"] →
      operation_type ∉ (["voice", "text", "callback", "ai", "sheets"] : List String) →
      tm.acquire operation_type wait nows
        = some (ManagerAcquireOutcome.returns true tm [])) := by
  refine ⟨rfl, ?_, ?_, ?_⟩
  · cases hd : tm.is_degraded <;> simp [enable_degraded_mode, hd]
  · cases hd : tm.is_degraded <;> simp [disable_degraded_mode, hd]
  · intro hkeys hop
    have hnone : lookupLimiter tm operation_type = none := by
      unfold lookupLimiter
      rw [List.find?_eq_none.mpr]
      · rfl
      · intro p hp
        have : p.1 ∈ tm.rate_limiters.map Prod.fst := List.mem_map_of_mem _ hp
        rw [hkeys] at this
        simp only [decide_eq_true_eq]
        intro hEq
        rw [hEq] at this
        exact hop this
    simp [ThrottleManager.acquire, hnone]

/-- Witness for C10: acquiring the unknown class "bogus" on the initial
manager succeeds immediately and leaves the manager untouched. -/
theorem C10_witness :
    ThrottleManager.new.acquire "bogus" true []
      = some (ManagerAcquireOutcome.returns true ThrottleManager.new []) :=
  (C10_unknown_operation_fail_open ThrottleManager.new "bogus" true []).2.2.2
    rfl (by simp)

end ThrottleModel

namespace MetricsModel

/-- C5: a dependency is counted unhealthy by `get_overall_health` exactly
when it has at least one recorded call and its success rate is below 95 %
(in particular `is_healthy` is true whenever `total_calls = 0`), and the
aggregate status is "healthy" with zero unhealthy dependencies, "degraded"
with exactly one, and "unhealthy" with two or more. -/
theorem C5_overall_health (mc : MetricsCollector) :
    (∀ p ∈ mc.services,
        ((p.2.is_healthy = false ∧ 0 < p.2.total_calls) ↔
          (1 ≤ p.2.total_calls ∧ p.2.success_rate < 95)))
  ∧ (∀ p ∈ mc.services, p.2.total_calls = 0 → p.2.is_healthy = true)
  ∧ ((unhealthy_services mc).length = 0 → get_overall_health mc = "healthy")
  ∧ ((unhealthy_services mc).length = 1 → get_overall_health mc = "degraded")
  ∧ (2 ≤ (unhealthy_services mc).length → get_overall_health mc = "unhealthy") := by
  refine ⟨?_, ?_, ?_, ?_, ?_⟩
  · intro p hp
    rcases Nat.eq_zero_or_pos p.2.total_calls with h0 | hpos
    · simp [ServiceStatus.is_healthy, ServiceStatus.success_rate, h0]
    · have hne : p.2.total_calls ≠ 0 := Nat.pos_iff_ne_zero.mp hpos
      have ht : (0:ℚ) < (p.2.total_calls : ℚ) := by exact_mod_cast hpos
      simp only [ServiceStatus.is_healthy, ServiceStatus.success_rate, if_neg hne,
        decide_eq_false_iff_not, not_le]
      constructor
      · rintro ⟨h, -⟩
        exact ⟨hpos, by nlinarith⟩
      · rintro ⟨-, h⟩
        exact ⟨by nlinarith, hpos⟩
  · intro p hp h0
    simp [ServiceStatus.is_healthy, h0]
  · intro h
    have he : unhealthy_services mc = [] := List.length_eq_zero.mp h
    simp [get_overall_health, he]
  · intro h
    have hne : unhealthy_services mc ≠ [] := by
      intro he
      rw [he] at h
      simp at h
    simp [get_overall_health, hne, h]
  · intro h
    have hne : unhealthy_services mc ≠ [] := by
      intro he
      rw [he] at h
      simp at h
    simp [get_overall_health, hne, h]

/-- Witness for C5: a collector with one dependency at success rate 50 %
(1 of 2 calls) and one with no calls reports "degraded". -/
theorem C5_witness :
    get_overall_health
      { services :=
          [("yandex_gpt", { total_calls := 2, success_calls := 1, failed_calls := 1 }),
           ("telegram", {})],
        request_types := fun _ => {}, response_times := [] } = "degraded" := by
  apply (C5_overall_health _).2.2.2.1
  simp [unhealthy_services, ServiceStatus.is_healthy]
  norm_num

/-- C6: `get_response_time_percentiles` sorts the latency buffer and indexes
it at the zero-based nearest rank `floor(count * pct)` for
pct ∈ \x7b0.50, 0.95, 0.99\x7d, an empty buffer yields all-zero percentiles, and
the 100-sample buffer holding durations 0..99 yields p50 = 50 and p95 = 95
(and p99 = 99). -/
theorem C6_percentiles_nearest_rank (mc : MetricsCollector) :
    (mc.response_times ≠ [] →
      get_response_time_percentiles mc =
        ((mc.response_times.mergeSort (· ≤ ·)).getD
            (⌊(mc.response_times.length : ℚ) * (50 / 100)⌋).toNat 0,
         (mc.response_times.mergeSort (· ≤ ·)).getD
            (⌊(mc.response_times.length : ℚ) * (95 / 100)⌋).toNat 0,
         (mc.response_times.mergeSort (· ≤ ·)).getD
            (⌊(mc.response_times.length : ℚ) * (99 / 100)⌋).toNat 0))
  ∧ (mc.response_times = [] → get_response_time_percentiles mc = (0, 0, 0))
  ∧ (get_response_time_percentiles
        { services := mc.services, request_types := mc.request_types,
          response_times := (List.range 100).map (fun n : ℕ => (n : ℚ)) }
      = (50, 95, 99)) := by
  refine ⟨?_, ?_, ?_⟩
  · intro h
    unfold get_response_time_percentiles
    rw [if_neg h]
    simp only [List.length_mergeSort]
  · intro h
    unfold get_response_time_percentiles
    rw [if_pos h]
  · have hne : ((List.range 100).map (fun n : ℕ => (n : ℚ))) ≠ [] := by simp
    have hpair : List.Pairwise (fun a b : ℚ => (decide (a ≤ b)) = true)
        ((List.range 100).map (fun n : ℕ => (n : ℚ))) := by
      refine List.Pairwise.map (fun n : ℕ => (n : ℚ)) ?_ (List.pairwise_lt_range 100)
      intro a b hab
      simp only [decide_eq_true_eq]
      exact_mod_cast Nat.le_of_lt hab
    have hi50 : (⌊(((List.range 100).map (fun n : ℕ => (n : ℚ))).length : ℚ)
        * (50 / 100)⌋).toNat = 50 := by
      simp only [List.length_map, List.length_range, Nat.cast_ofNat]
      norm_num
      decide
    have hi95 : (⌊(((List.range 100).map (fun n : ℕ => (n : ℚ))).length : ℚ)
        * (95 / 100)⌋).toNat = 95 := by
      simp only [List.length_map, List.length_range, Nat.cast_ofNat]
      norm_num
      decide
    have hi99 : (⌊(((List.range 100).map (fun n : ℕ => (n : ℚ))).length : ℚ)
        * (99 / 100)⌋).toNat = 99 := by
      simp only [List.length_map, List.length_range, Nat.cast_ofNat]
      norm_num
      decide
    have hg : ∀ i : ℕ, i < 100 →
        ((List.range 100).map (fun n : ℕ => (n : ℚ))).getD i 0 = (i : ℚ) := by
      intro i hi
      simp [List.getD, List.getElem?_map, List.getElem?_range, hi]
    unfold get_response_time_percentiles
    rw [if_neg hne]
    simp only [List.mergeSort_of_sorted hpair, hi50, hi95, hi99]
    rw [hg 50 (by norm_num), hg 95 (by norm_num), hg 99 (by norm_num)]
    norm_num

/-- Witness for C6: the fresh collector's empty buffer yields all-zero
percentiles, and the buffer 0..99 yields (50, 95, 99). -/
theorem C6_witness :
    get_response_time_percentiles MetricsCollector.new = (0, 0, 0)
  ∧ get_response_time_percentiles
      { services := MetricsCollector.new.services,
        request_types := MetricsCollector.new.request_types,
        response_times := (List.range 100).map (fun n : ℕ => (n : ℚ)) }
    = (50, 95, 99) :=
  ⟨(C6_percentiles_nearest_rank MetricsCollector.new).2.1 rfl,
   (C6_percentiles_nearest_rank MetricsCollector.new).2.2⟩

end MetricsModel

namespace MetricsModel

lemma updateStatus_fields (st : ServiceStatus) (succ : Bool) (d : ℚ)
    (err : Option String) (now : ℚ) :
    (updateStatus st succ d err now).total_calls = st.total_calls + 1
  ∧ (updateStatus st succ d err now).success_calls
      = st.success_calls + (if succ then 1 else 0)
  ∧ (updateStatus st succ d err now).failed_calls
      = st.failed_calls + (if succ then 0 else 1)
  ∧ (updateStatus st succ d err now).avg_response_time * ((st.total_calls : ℚ) + 1)
      = st.avg_response_time * (st.total_calls : ℚ) + d := by
  have hq : ((st.total_calls : ℚ) + 1) ≠ 0 := by positivity
  cases succ <;> by_cases h0 : st.total_calls = 0 <;>
    simp [updateStatus, h0, hq]

lemma lookup_map_if (l : List (String × ServiceStatus)) (s' : String)
    (g : ServiceStatus → ServiceStatus) (s : String) :
    (((l.map (fun p => if p.1 = s' then (p.1, g p.2) else p)).find?
        (fun p => p.1 = s)).map Prod.snd)
      = if s' = s then ((l.find? (fun p => p.1 = s)).map Prod.snd).map g
        else (l.find? (fun p => p.1 = s)).map Prod.snd := by
  induction l with
  | nil => by_cases h : s' = s <;> simp [h]
  | cons p l ih =>
      by_cases h1 : p.1 = s <;> by_cases h2 : p.1 = s'
      · have hss : s' = s := by rw [← h2]; exact h1
        simp [List.find?_cons, h1, h2, hss]
      · have hss : s' ≠ s := fun hc => h2 (by rw [h1, ← hc])
        simp [List.find?_cons, h1, h2, hss, Ne.symm hss]
      · have hss : s' ≠ s := fun hc => h1 (by rw [← hc, ← h2])
        simp [List.find?_cons, h1, h2, hss] at ih ⊢
        exact ih
      · simp [List.find?_cons, h1, h2] at ih ⊢
        exact ih

lemma lookupService_record_request (mc : MetricsCollector) (rt : String) (d : ℚ)
    (su : Bool) (s : String) :
    lookupService (record_request mc rt d su) s = lookupService mc s := rfl

lemma lookupService_record_service_call (mc : MetricsCollector) (service : String)
    (succ : Bool) (d : ℚ) (err : Option String) (now : ℚ) (s : String) :
    lookupService (record_service_call mc service succ d err now) s
      = if service = s then
          (lookupService mc s).map (fun st => updateStatus st succ d err now)
        else lookupService mc s := by
  unfold record_service_call
  split
  case isTrue h =>
    unfold lookupService
    exact lookup_map_if mc.services service (fun st => updateStatus st succ d err now) s
  case isFalse h =>
    by_cases hss : service = s
    · subst hss
      have hfind : (mc.services.find? fun p => p.1 = service) = none := by
        rw [← Option.not_isSome_iff_eq_none]
        simpa using h
      have hnone : lookupService mc service = none := by
        unfold lookupService
        rw [hfind]
        rfl
      simp [hnone]
    · simp [hss]

lemma applyEvent_invariants (mc : MetricsCollector) (e : MetricsEvent)
    (h1 : ∀ k, (mc.request_types k).count
        = (mc.request_types k).success + (mc.request_types k).errors)
    (h2 : ∀ p ∈ mc.services, p.2.total_calls = p.2.success_calls + p.2.failed_calls) :
    (∀ k, ((applyEvent mc e).request_types k).count
        = ((applyEvent mc e).request_types k).success
          + ((applyEvent mc e).request_types k).errors)
  ∧ (∀ p ∈ (applyEvent mc e).services,
      p.2.total_calls = p.2.success_calls + p.2.failed_calls) := by
  cases e with
  | req rt d su =>
      constructor
      · intro k
        by_cases hk : k = rt
        · subst hk
          have hk1 := h1 k
          cases su <;> simp [applyEvent, record_request] <;> omega
        · simp [applyEvent, record_request, hk]
          exact h1 k
      · intro p hp
        exact h2 p hp
  | svc service succ d err now =>
      constructor
      · intro k
        simp only [applyEvent, record_service_call]
        split <;> exact h1 k
      · intro p hp
        simp only [applyEvent, record_service_call] at hp
        split at hp
        case isTrue h =>
          simp only [List.mem_map] at hp
          rcases hp with ⟨q, hq, rfl⟩
          by_cases hqs : q.1 = service
          · have hf := updateStatus_fields q.2 succ d err now
            have hq2 := h2 q hq
            cases succ <;> simp [hqs, hf.1, hf.2.1, hf.2.2.1] <;> omega
          · simp [hqs]
            exact h2 q hq
        case isFalse h =>
          exact h2 p hp

/-- C4: after any sequence of `record_request` / `record_service_call`
calls, `count = success + errors` holds for every operation class's
`RequestMetrics` and `total_calls = success_calls + failed_calls` holds for
every dependency's `ServiceStatus`. -/
theorem C4_metrics_count_invariants (es : List MetricsEvent) :
    (∀ k, ((runEvents MetricsCollector.new es).request_types k).count
        = ((runEvents MetricsCollector.new es).request_types k).success
          + ((runEvents MetricsCollector.new es).request_types k).errors)
  ∧ (∀ p ∈ (runEvents MetricsCollector.new es).services,
        p.2.total_calls = p.2.success_calls + p.2.failed_calls) := by
  have main : ∀ (ev : List MetricsEvent) (mc : MetricsCollector),
      (∀ k, (mc.request_types k).count
          = (mc.request_types k).success + (mc.request_types k).errors) →
      (∀ p ∈ mc.services, p.2.total_calls = p.2.success_calls + p.2.failed_calls) →
      ((∀ k, ((runEvents mc ev).request_types k).count
          = ((runEvents mc ev).request_types k).success
            + ((runEvents mc ev).request_types k).errors)
        ∧ (∀ p ∈ (runEvents mc ev).services,
            p.2.total_calls = p.2.success_calls + p.2.failed_calls)) := by
    intro ev
    induction ev with
    | nil => exact fun mc ha hb => ⟨ha, hb⟩
    | cons e ev ih =>
        intro mc ha hb
        have h := applyEvent_invariants mc e ha hb
        exact ih (applyEvent mc e) h.1 h.2
  refine main es MetricsCollector.new (fun k => rfl) ?_
  intro p hp
  simp [MetricsCollector.new] at hp
  rcases hp with rfl | rfl | rfl | rfl <;> rfl

/-- Witness for C4 at a concrete two-event sequence. -/
theorem C4_witness :
    ((runEvents MetricsCollector.new
        [MetricsEvent.req "voice" 5 true,
         MetricsEvent.svc "telegram" false 2 none 0]).request_types "voice").count
      = ((runEvents MetricsCollector.new
        [MetricsEvent.req "voice" 5 true,
         MetricsEvent.svc "telegram" false 2 none 0]).request_types "voice").success
        + ((runEvents MetricsCollector.new
        [MetricsEvent.req "voice" 5 true,
         MetricsEvent.svc "telegram" false 2 none 0]).request_types "voice").errors :=
  (C4_metrics_count_invariants
      [MetricsEvent.req "voice" 5 true,
       MetricsEvent.svc "telegram" false 2 none 0]).1 "voice"

lemma runEvents_mean_aux (es : List MetricsEvent) :
    ∀ (mc : MetricsCollector) (s : String) (st : ServiceStatus),
      lookupService mc s = some st →
      ∃ st', lookupService (runEvents mc es) s = some st'
        ∧ st'.total_calls = st.total_calls + (svcDurations s es).length
        ∧ st'.avg_response_time * (st'.total_calls : ℚ)
            = st.avg_response_time * (st.total_calls : ℚ) + (svcDurations s es).sum := by
  induction es with
  | nil =>
      intro mc s st h
      exact ⟨st, h, by simp [svcDurations], by simp [svcDurations]⟩
  | cons e es ih =>
      intro mc s st h
      cases e with
      | req rt d su =>
          have h' : lookupService (applyEvent mc (MetricsEvent.req rt d su)) s
              = some st := by
            show lookupService (record_request mc rt d su) s = some st
            rw [lookupService_record_request]
            exact h
          obtain ⟨st', ha, hb, hc⟩ := ih (applyEvent mc (MetricsEvent.req rt d su)) s st h'
          exact ⟨st', ha, by simpa [svcDurations] using hb,
            by simpa [svcDurations] using hc⟩
      | svc service succ d err now =>
          by_cases hss : service = s
          · subst hss
            have h' : lookupService (applyEvent mc (MetricsEvent.svc service succ d err now))
                service = some (updateStatus st succ d err now) := by
              show lookupService (record_service_call mc service succ d err now) service = _
              rw [lookupService_record_service_call, if_pos rfl, h]
              rfl
            obtain ⟨st', ha, hb, hc⟩ :=
              ih (applyEvent mc (MetricsEvent.svc service succ d err now)) service
                (updateStatus st succ d err now) h'
            have hf := updateStatus_fields st succ d err now
            have ht : ((updateStatus st succ d err now).total_calls : ℚ)
                = (st.total_calls : ℚ) + 1 := by
              rw [hf.1]
              push_cast
              ring
            refine ⟨st', ha, ?_, ?_⟩
            · rw [hb, hf.1]
              simp [svcDurations]
              omega
            · rw [hc, ht, hf.2.2.2]
              simp [svcDurations]
              ring
          · have h' : lookupService (applyEvent mc (MetricsEvent.svc service succ d err now)) s
                = some st := by
              show lookupService (record_service_call mc service succ d err now) s = _
              rw [lookupService_record_service_call, if_neg hss]
              exact h
            obtain ⟨st', ha, hb, hc⟩ :=
              ih (applyEvent mc (MetricsEvent.svc service succ d err now)) s st h'
            exact ⟨st', ha, by simpa [svcDurations, hss] using hb,
              by simpa [svcDurations, hss] using hc⟩

/-- C9: `record_service_call` updates a known dependency's average latency by
the incremental-mean rule `avg += (duration - avg) / total_calls`, and over
any event sequence the resulting average equals (in exact arithmetic) the
arithmetic mean of all durations ever recorded for that dependency — its
entire lifetime, not a window. -/
theorem C9_lifetime_incremental_mean (es : List MetricsEvent) (s : String)
    (h0 : lookupService MetricsCollector.new s = some ({} : ServiceStatus)) :
    (∃ st', lookupService (runEvents MetricsCollector.new es) s = some st'
      ∧ st'.total_calls = (svcDurations s es).length
      ∧ (0 < st'.total_calls →
          st'.avg_response_time = (svcDurations s es).sum / (st'.total_calls : ℚ)))
  ∧ (∀ (mc : MetricsCollector) (st : ServiceStatus) (succ : Bool) (d : ℚ)
        (err : Option String) (now : ℚ),
      lookupService mc s = some st →
      lookupService (record_service_call mc s succ d err now) s
          = some (updateStatus st succ d err now)
      ∧ (updateStatus st succ d err now).total_calls = st.total_calls + 1
      ∧ (updateStatus st succ d err now).avg_response_time
          = st.avg_response_time
            + (d - st.avg_response_time)
              / (((updateStatus st succ d err now).total_calls : ℚ))) := by
  constructor
  · obtain ⟨st', ha, hb, hc⟩ := runEvents_mean_aux es MetricsCollector.new s {} h0
    simp only [ServiceStatus.total_calls, Nat.zero_add] at hb
    refine ⟨st', ha, by simpa using hb, ?_⟩
    intro hpos
    have hq : ((st'.total_calls : ℚ)) ≠ 0 := by
      have : (0:ℚ) < (st'.total_calls : ℚ) := by exact_mod_cast hpos
      exact ne_of_gt this
    rw [eq_div_iff hq]
    simpa using hc
  · intro mc st succ d err now hst
    have hf := updateStatus_fields st succ d err now
    have ht : ((updateStatus st succ d err now).total_calls : ℚ)
        = (st.total_calls : ℚ) + 1 := by
      rw [hf.1]
      push_cast
      ring
    refine ⟨?_, hf.1, ?_⟩
    · rw [lookupService_record_service_call, if_pos rfl, hst]
      rfl
    · have hq : (st.total_calls : ℚ) + 1 ≠ 0 := by positivity
      rw [ht, eq_comm]
      field_simp
      linear_combination -hf.2.2.2

/-- Witness for C9 at a concrete one-call sequence for "telegram". -/
theorem C9_witness :
    ∃ st', lookupService (runEvents MetricsCollector.new
          [MetricsEvent.svc "telegram" true 4 none 0]) "telegram" = some st'
      ∧ st'.total_calls
          = (svcDurations "telegram" [MetricsEvent.svc "telegram" true 4 none 0]).length
      ∧ (0 < st'.total_calls →
          st'.avg_response_time
            = (svcDurations "telegram" [MetricsEvent.svc "telegram" true 4 none 0]).sum
              / (st'.total_calls : ℚ)) :=
  (C9_lifetime_incremental_mean [MetricsEvent.svc "telegram" true 4 none 0]
      "telegram" rfl).1

end MetricsModel

namespace ThrottleModel

lemma acquireBody_eq (rl : RateLimiter) (now : ℚ) (wait : Bool) :
    acquireBody rl now wait =
      if ((cleanup rl now).secondCount now : ℚ) ≥ rl.config.max_requests_per_second then
        (if wait then
          (AcquireStep.sleepRetry
            (1 - (now - (cleanup rl now).requests_last_second.headI)), cleanup rl now)
         else (AcquireStep.denied, cleanup rl now))
      else if ((cleanup rl now).minuteCount now : ℚ)
          ≥ rl.config.max_requests_per_minute then
        (if wait then
          (AcquireStep.sleepRetry
            (60 - (now - (cleanup rl now).requests_last_minute.headI)), cleanup rl now)
         else (AcquireStep.denied, cleanup rl now))
      else
        (AcquireStep.granted,
          { cleanup rl now with
            requests_last_second :=
              dequeAppend (cleanup rl now).maxlenSecond
                (cleanup rl now).requests_last_second now
            requests_last_minute :=
              dequeAppend (cleanup rl now).maxlenMinute
                (cleanup rl now).requests_last_minute now }) := rfl
/-- C2 (code bug): the spec's bounded single retry does not hold of the
code.  With a violated window, `acquire(wait=True)` sleeps the computed
delay and then the recursive `acquire(wait=False)` re-enters the
non-reentrant `asyncio.Lock` that the same task still holds across the
`with` block, so the call never returns.  Concretely, a 1-per-second
limiter holding one timestamp taken 0.5 s ago: `acquire(wait=True)` sleeps
exactly 0.5 s and then deadlocks, while `acquire(wait=False)` on the same
limiter returns `False` immediately. -/
theorem C2_wait_path_deadlocks :
    RateLimiter.acquire ⟨⟨1, 100, 5⟩, [0], [0]⟩ true [1/2, 1]
      = some (AcquireOutcome.deadlock [1/2])
  ∧ RateLimiter.acquire ⟨⟨1, 100, 5⟩, [0], [0]⟩ false [1/2]
      = some (AcquireOutcome.returns false ⟨⟨1, 100, 5⟩, [0], [0]⟩ []) := by
  have hcl : cleanup (⟨⟨1, 100, 5⟩, [0], [0]⟩ : RateLimiter) (1/2)
      = ⟨⟨1, 100, 5⟩, [0], [0]⟩ := by
    norm_num [cleanup, dropOld]
  have hcount : ((cleanup (⟨⟨1, 100, 5⟩, [0], [0]⟩ : RateLimiter) (1/2)).secondCount
        (1/2) : ℚ)
      ≥ (⟨⟨1, 100, 5⟩, [0], [0]⟩ : RateLimiter).config.max_requests_per_second := by
    rw [hcl]
    norm_num [RateLimiter.secondCount, List.filter]
  constructor
  · have hb : acquireBody (⟨⟨1, 100, 5⟩, [0], [0]⟩ : RateLimiter) (1/2) true
        = (AcquireStep.sleepRetry (1/2), ⟨⟨1, 100, 5⟩, [0], [0]⟩) := by
      rw [acquireBody_eq, if_pos hcount, if_pos rfl, hcl]
      norm_num
    simp only [RateLimiter.acquire, acquireAux]
    rw [hb]
    rfl
  · have hb : acquireBody (⟨⟨1, 100, 5⟩, [0], [0]⟩ : RateLimiter) (1/2) false
        = (AcquireStep.denied, ⟨⟨1, 100, 5⟩, [0], [0]⟩) := by
      rw [acquireBody_eq, if_pos hcount, hcl]
      norm_num
    simp only [RateLimiter.acquire, acquireAux]
    rw [hb]

end ThrottleModel
